import Mathlib

/-!
Verification of the dataset-curation pipeline (`preprocess.py`) and the
LLM-response handling of the interactive app (`mainApp.py`).

Python strings are modeled as `List Char`; Python dicts as insertion-ordered
association lists; the remote generation oracle as a function from prompt to
response (`Except` for the app, where call failures are caught; plain function
for the offline script, where they are not).  Concrete string values are
written as `"…".data`.
-/

set_option maxRecDepth 2000

namespace AINovel

/-- Python whitespace (the `\s` class / `str.strip` set): space, tab, newline,
carriage return, vertical tab, form feed. -/
def pyIsSpace (c : Char) : Bool :=
  c = ' ' || c = '\t' || c = '\n' || c = '\r' || c = Char.ofNat 11 || c = Char.ofNat 12

/-- Python `str.strip()`: drop whitespace from both ends. -/
def pyStrip (cs : List Char) : List Char :=
  ((cs.dropWhile pyIsSpace).reverse.dropWhile pyIsSpace).reverse

/-- Python `str.split(sep)` for `sep = '\n'`: split at every newline, keeping
empty pieces; the empty string yields one empty piece. -/
def pySplitNl : List Char → List (List Char)
  | [] => [[]]
  | c :: cs =>
    if c = '\n' then [] :: pySplitNl cs
    else
      match pySplitNl cs with
      | [] => [[c]]
      | piece :: pieces => (c :: piece) :: pieces

/-- Python substring containment `pat in s`. -/
def listInfixOf (pat : List Char) : List Char → Bool
  | [] => pat.isEmpty
  | c :: rest => pat.isPrefixOf (c :: rest) || listInfixOf pat rest

/-- Keys of a Python dict modeled as an insertion-ordered association list. -/
def dictKeys {κ α : Type} (m : List (κ × α)) : List κ := m.map Prod.fst

/-- Python dict assignment `m[k] = v`: update in place if the key is present
(keeping its insertion position), otherwise append at the end. -/
def pyDictInsert {κ α : Type} [DecidableEq κ] (m : List (κ × α)) (k : κ) (v : α) :
    List (κ × α) :=
  if m.any (fun p => p.1 = k) then
    m.map (fun p => if p.1 = k then (p.1, v) else p)
  else m ++ [(k, v)]

/-- Python dict lookup `m[k]` / `m.get(k)`: value of the entry with key `k`. -/
def pyLookup {κ α : Type} [DecidableEq κ] (m : List (κ × α)) (k : κ) : Option α :=
  (m.find? (fun p => p.1 = k)).map Prod.snd

/-- Python `m.get(k, dflt)`. -/
def pyGet {κ α : Type} [DecidableEq κ] (m : List (κ × α)) (k : κ) (dflt : α) : α :=
  match pyLookup m k with
  | some v => v
  | none => dflt

/-- Python dict merge `{**a, **b}`: start from `a`, assign every entry of `b`. -/
def pyDictMerge {κ α : Type} [DecidableEq κ] (a b : List (κ × α)) : List (κ × α) :=
  b.foldl (fun m p => pyDictInsert m p.1 p.2) a

/-! ## preprocess.py: constants and the document scan -/

def MIN_BOOK_LENGTH : Nat := 70000

def MAX_BOOKS_TO_LIST : Nat := 50

def SEARCH_LIMIT : Nat := 50000

def PRIORITY_KEYWORDS : List (List Char) :=
  ["sherlock holmes".data, "scarlet".data, "baskervilles".data,
   "pride and prejudice".data, "frankenstein".data, "moby dick".data, "dracula".data,
   "huckleberry finn".data, "gatsby".data, "misérables".data, "miserables".data,
   "all quiet on the western front".data, "rebecca".data, "wizard of oz".data,
   "alice in wonderland".data, "peter pan".data]

/-- A corpus record `{ "text": … }` as yielded by the streamed dataset. -/
structure Document where
  text : List Char
deriving DecidableEq

/-- The lowercase characters of the literal part of `TITLE_REGEX = Title:\s*(.+)`. -/
def titleTag : List Char := ['t', 'i', 't', 'l', 'e', ':']

/-- `group(1)` of `Title:\s*(.+)` matched right after the literal tag, where `cs`
are the remaining characters: `\s*` greedily consumes whitespace (including
newlines), then `(.+)` captures a maximal nonempty run of non-newline
characters.  If only whitespace remains, regex backtracking hands single
whitespace characters back to `.`, so the group becomes the last non-newline
whitespace character if one exists, and the match fails otherwise. -/
def titleGroupAfter (cs : List Char) : Option (List Char) :=
  let rest := cs.dropWhile pyIsSpace
  if rest.isEmpty then
    match (cs.reverse).dropWhile (fun d => d = '\n') with
    | [] => none
    | d :: _ => some [d]
  else
    some (rest.takeWhile (fun d => d ≠ '\n'))

/-- `TITLE_REGEX.search(text)` followed by `.group(1)`: try each start position
from the left; where the six characters match `title:` case-insensitively the
whole pattern matches iff `titleGroupAfter` succeeds on the remainder, and the
search otherwise continues at the next position. -/
def findTitle : List Char → Option (List Char)
  | [] => none
  | c :: cs =>
    if ((c :: cs).take 6).map Char.toLower = titleTag then
      match titleGroupAfter ((c :: cs).drop 6) with
      | some g => some g
      | none => findTitle cs
    else findTitle cs

/-- `title.lower().replace('-', ' ')` from the scan loop. -/
def normalizeTitle (t : List Char) : List Char :=
  t.map (fun c => if c = '-' then ' ' else c.toLower)

/-- State of the scan loop: the two buckets (insertion-ordered dicts
`priority_books`, `other_books`) and the consumed-keyword set `found_keywords`. -/
structure ScanState where
  priority : List (List Char × List Char)
  other : List (List Char × List Char)
  found : List (List Char)
deriving DecidableEq

def ScanState.empty : ScanState := ⟨[], [], []⟩

def ScanState.count (st : ScanState) : Nat := st.priority.length + st.other.length

/-- The inner `for kw in PRIORITY_KEYWORDS` loop: the first keyword, in list
order, contained in the normalized title and not yet consumed. -/
def firstUnconsumed (kws found : List (List Char)) (nt : List Char) : Option (List Char) :=
  kws.find? (fun kw => listInfixOf kw nt && !(decide (kw ∈ found)))

/-- The body of one iteration of the scan loop of `find_and_sort_books`
(length filter, title extraction, dedup, priority/other classification). -/
def processDoc (minLen : Nat) (kws : List (List Char)) (maxB : Nat)
    (st : ScanState) (d : Document) : ScanState :=
  if d.text.length < minLen then st
  else
    match findTitle d.text with
    | none => st
    | some g =>
      let title := pyStrip g
      if title = [] ∨ title ∈ dictKeys st.priority ∨ title ∈ dictKeys st.other then st
      else
        match firstUnconsumed kws st.found (normalizeTitle title) with
        | some kw =>
          { st with priority := st.priority ++ [(title, d.text)],
                    found := st.found ++ [kw] }
        | none =>
          if st.other.length < maxB - kws.length then
            { st with other := st.other ++ [(title, d.text)] }
          else st

/-- The scan loop of `find_and_sort_books`: iterate over the documents, breaking
as soon as the two buckets together hold `maxB` entries. -/
def scanGo (minLen : Nat) (kws : List (List Char)) (maxB : Nat) :
    ScanState → List Document → ScanState
  | st, [] => st
  | st, d :: ds =>
    if maxB ≤ st.count then st
    else scanGo minLen kws maxB (processDoc minLen kws maxB st d) ds

/-- The scan of `find_and_sort_books` over a corpus: at most `SEARCH_LIMIT`
documents (`ds.take(SEARCH_LIMIT)`), with the repository's constants. -/
def scanStateOf (corpus : List Document) : ScanState :=
  scanGo MIN_BOOK_LENGTH PRIORITY_KEYWORDS MAX_BOOKS_TO_LIST ScanState.empty
    (corpus.take SEARCH_LIMIT)

/-- `sorted_titles = list(priority_books.keys()) + list(other_books.keys())`. -/
def orderedTitlesOf (st : ScanState) : List (List Char) :=
  dictKeys st.priority ++ dictKeys st.other

/-- `find_and_sort_books`: the ordered title list and the merged
`{**priority_books, **other_books}` title→text table. -/
def find_and_sort_books (corpus : List Document) :
    List (List Char) × List (List Char × List Char) :=
  (orderedTitlesOf (scanStateOf corpus),
   pyDictMerge (scanStateOf corpus).priority (scanStateOf corpus).other)

/-! ## preprocess.py: title translation -/

/-- The batch translation prompt of `translate_titles`. -/
def titlesPrompt (ts : List (List Char)) : List Char :=
  "Translate the following book titles into Korean. Maintain the original order and provide only the translated titles, one per line. Do not add numbers or bullets.\n\n".data
    ++ List.intercalate ['\n'] ts

/-- `response.text.strip().split('\n')` for the translation response. -/
def respLines (oracle : List Char → List Char) (ts : List (List Char)) : List (List Char) :=
  pySplitNl (pyStrip (oracle (titlesPrompt ts)))

/-- `translate_titles`: zip the response lines with the original titles into a
dict (`{kt: et for kt, et in zip(translated_titles, sorted_english_titles)}`)
if the counts agree, otherwise fall back to the identity dict
(`{et: et for et in sorted_english_titles}`). -/
def translate_titles (oracle : List Char → List Char) (sorted_english_titles : List (List Char)) :
    List (List Char × List Char) :=
  if sorted_english_titles.length = (respLines oracle sorted_english_titles).length then
    ((respLines oracle sorted_english_titles).zip sorted_english_titles).foldl
      (fun m p => pyDictInsert m p.1 p.2) []
  else
    sorted_english_titles.foldl (fun m t => pyDictInsert m t t) []

/-- A translation oracle answering two identical lines. -/
def cexOracleC2 : List Char → List Char := fun _ => "A\nA".data

/-- A translation oracle answering two distinct lines. -/
def exOracleC2 : List Char → List Char := fun _ => "KA\nKB".data

/-- A translation oracle answering a single line. -/
def exOracleC2mis : List Char → List Char := fun _ => "KA".data

/-! ## mainApp.py: session state -/

/-- A dynamically-typed Python value held in `st.session_state`.  The matplotlib
figure returned by `create_radar_chart` is an external object whose content no
session logic inspects; it is modeled by the token `vChart`. -/
inductive PyVal where
  | vStr : List Char → PyVal
  | vList : List (List Char) → PyVal
  | vNat : Nat → PyVal
  | vNone : PyVal
  | vChart : PyVal
deriving DecidableEq

/-- Python truthiness for the session values involved in `if` tests. -/
def pyTruthy : PyVal → Bool
  | .vStr s => !s.isEmpty
  | .vList l => !l.isEmpty
  | .vNat n => n ≠ 0
  | .vNone => false
  | .vChart => true

/-- Reading a session value where the code uses it as a string. -/
def getStr : PyVal → List Char
  | .vStr s => s
  | _ => []

/-- The keys initialized by `initialize_session_state`. -/
structure SessionState where
  novel_text : PyVal
  base_summary : PyVal
  translated_summary : PyVal
  perspective_text : PyVal
  final_summary : PyVal
  openness : PyVal
  conscientiousness : PyVal
  extraversion : PyVal
  agreeableness : PyVal
  neuroticism : PyVal
  analysis_reasoning : PyVal
  radar_chart : PyVal
  character_list : PyVal
  character_name_input : PyVal
deriving DecidableEq

/-- The defaults set by `initialize_session_state`. -/
def initialSessionState : SessionState :=
  { novel_text := .vStr [], base_summary := .vStr [], translated_summary := .vStr [],
    perspective_text := .vStr [], final_summary := .vStr [],
    openness := .vNat 50, conscientiousness := .vNat 50, extraversion := .vNat 50,
    agreeableness := .vNat 50, neuroticism := .vNat 50,
    analysis_reasoning := .vStr [], radar_chart := .vNone,
    character_list := .vList [], character_name_input := .vStr [] }

/-! ## mainApp.py: prompts -/

def summaryPrompt (novel_text : List Char) : List Char :=
  "Please provide a detailed summary of the key events from the following novel:\n\n".data
    ++ novel_text

def translatePrompt (base_summary : List Char) : List Char :=
  "Translate the following English text into Korean:\n\n".data ++ base_summary

def extractPrompt (base_summary : List Char) : List Char :=
  "Based on the following novel summary, identify the main characters.\nYour response MUST be a single, valid JSON array containing strings of the character names.\nFor example: [\"Character A\", \"Character B\", \"Character C\"]\nDo not include any other text or explanations outside of the JSON array.\n---\n**Novel Summary:**\n".data
    ++ base_summary

def analysisPrompt (character_name base_summary : List Char) : List Char :=
  "Analyze the personality of the character \x27".data ++ character_name
    ++ "\x27 based on the provided novel summary.\nYour response MUST be a single, valid JSON object and nothing else.\nThe JSON object must contain the keys openness, conscientiousness, extraversion, agreeableness, neuroticism and reasoning.\n---\n**Novel Summary:**\n".data
    ++ base_summary

def personaPrompt (character_name big5_profile base_summary : List Char) : List Char :=
  "You are the character \x27".data ++ character_name
    ++ "\x27.\nYour personality is defined by the Big 5 model (OCEAN). Based on the provided plot summary, recount the story as if you personally experienced these events.\n---\n**Character\x27s Big 5 Personality Profile:**\n".data
    ++ big5_profile ++ "\n---\n**Original Plot Summary:**\n".data ++ base_summary

def finalSummaryPrompt (perspective_text : List Char) : List Char :=
  "The following text is a first-person narrative from a character whose personality was modified.\nPlease summarize this story from a third-person perspective.\n---\n**First-person Narrative:**\n".data
    ++ perspective_text

/-! ## mainApp.py: generation steps -/

/-- `generate_summary`: the oracle is called for the summary; on success the
summary is stored in `base_summary` and a second call translates it; the one
`try/except` wraps both calls, so a failure of the second call leaves the
already-assigned `base_summary` in place. -/
def generate_summary (oracle : List Char → Except (List Char) (List Char))
    (novel_text : List Char) (s : SessionState) : SessionState :=
  match oracle (summaryPrompt novel_text) with
  | .error _ => s
  | .ok summaryText =>
    let s1 := { s with base_summary := PyVal.vStr summaryText }
    match oracle (translatePrompt summaryText) with
    | .error _ => s1
    | .ok translatedText => { s1 with translated_summary := PyVal.vStr translatedText }

/-- `generate_persona_analysis_with_big5`: on failure only the error is shown. -/
def generate_persona_analysis_with_big5 (oracle : List Char → Except (List Char) (List Char))
    (character_name big5_profile base_summary : List Char) (s : SessionState) : SessionState :=
  match oracle (personaPrompt character_name big5_profile base_summary) with
  | .error _ => s
  | .ok t => { s with perspective_text := PyVal.vStr t }

/-- `summarize_persona_narrative`: on failure only the error is shown. -/
def summarize_persona_narrative (oracle : List Char → Except (List Char) (List Char))
    (perspective_text : List Char) (s : SessionState) : SessionState :=
  match oracle (finalSummaryPrompt perspective_text) with
  | .error _ => s
  | .ok t => { s with final_summary := PyVal.vStr t }

/-! ## mainApp.py: character extraction (`re.search(r'\[.*\]', …)` + json.loads) -/

/-- `re.search(r'\[.*\]', text)`: the leftmost match starts at the first `[`
that is followed by a `]` later on the same line (`.` does not match a
newline), and the greedy `.*` extends the match to the last such `]`.
Returns the matched substring. -/
def bracketMatch : List Char → Option (List Char)
  | [] => none
  | c :: cs =>
    if c = '[' then
      match ((cs.takeWhile (fun d => d ≠ '\n')).reverse).dropWhile (fun d => d ≠ ']') with
      | [] => bracketMatch cs
      | d :: rest => some ('[' :: ((d :: rest).reverse))
    else bracketMatch cs

/-- JSON whitespace. -/
def jsonWs (c : Char) : Bool := c = ' ' || c = '\t' || c = '\n' || c = '\r'

def skipWs (cs : List Char) : List Char := cs.dropWhile jsonWs

/-- Parse the remainder of a JSON string literal after the opening quote,
returning the content and the rest of the input.  Escape sequences are not
modeled: a backslash rejects. -/
def parseJStringAux : List Char → List Char → Option (List Char × List Char)
  | [], _ => none
  | c :: cs, acc =>
    if c = '"' then some (acc.reverse, cs)
    else if c = '\\' then none
    else parseJStringAux cs (c :: acc)

/-- Parse a JSON string literal. -/
def parseJString (cs : List Char) : Option (List Char × List Char) :=
  match cs with
  | '"' :: rest => parseJStringAux rest []
  | _ => none

def digitsToNat (ds : List Char) : Nat :=
  ds.foldl (fun n c => 10 * n + (c.toNat - 48)) 0

/-- Parse a (nonnegative integer) JSON number. -/
def parseJNat (cs : List Char) : Option (Nat × List Char) :=
  let digits := cs.takeWhile (fun c => c.isDigit)
  if digits.isEmpty then none
  else some (digitsToNat digits, cs.drop digits.length)

/-- Items of a JSON array of strings, after the opening bracket; requires the
input to be exhausted after the closing bracket (as `json.loads` does). -/
def parseStrItems : Nat → List Char → List (List Char) → Option (List (List Char))
  | 0, _, _ => none
  | fuel + 1, cs, acc =>
    match parseJString (skipWs cs) with
    | none => none
    | some p =>
      match skipWs p.2 with
      | ',' :: cs2 => parseStrItems fuel cs2 (p.1 :: acc)
      | ']' :: cs2 => if (skipWs cs2).isEmpty then some ((p.1 :: acc).reverse) else none
      | _ => none

/-- `json.loads` on the matched bracket span, modeled on the response shape the
extraction prompt demands (a JSON array of strings); any other input raises,
i.e. returns `none`. -/
def jsonParseStrArray (cs : List Char) : Option (List (List Char)) :=
  match skipWs cs with
  | '[' :: rest =>
    match skipWs rest with
    | ']' :: cs2 => if (skipWs cs2).isEmpty then some [] else none
    | _ => parseStrItems (rest.length + 1) rest []
  | _ => none

/-- `extract_characters_from_summary`: locate a bracketed span, parse it; on a
missing span `character_list` is set to `[]` with a warning, and on a parse
error (`json.loads` raising, caught by the outer `except`) or an oracle
failure it is set to `[]` with an error message. -/
def extract_characters_from_summary (oracle : List Char → Except (List Char) (List Char))
    (base_summary : List Char) (s : SessionState) : SessionState :=
  match oracle (extractPrompt base_summary) with
  | .error _ => { s with character_list := PyVal.vList [] }
  | .ok txt =>
    match bracketMatch txt with
    | none => { s with character_list := PyVal.vList [] }
    | some m =>
      match jsonParseStrArray m with
      | some arr => { s with character_list := PyVal.vList arr }
      | none => { s with character_list := PyVal.vList [] }

/-! ## mainApp.py: personality analysis (code fences + json.loads of an object) -/

inductive PyJson where
  | num : Nat → PyJson
  | str : List Char → PyJson
deriving DecidableEq

def pyJsonToVal : PyJson → PyVal
  | .num n => .vNat n
  | .str s => .vStr s

def openBrace : Char := Char.ofNat 123

def closeBrace : Char := Char.ofNat 125

def backquote : Char := Char.ofNat 96

def fenceJsonNl : List Char := [backquote, backquote, backquote, 'j', 's', 'o', 'n', '\n']

def fenceJson : List Char := [backquote, backquote, backquote, 'j', 's', 'o', 'n']

def fencePlain : List Char := [backquote, backquote, backquote]

/-- One pass of `re.sub(r"```json\n?|```", "", …)`: left-to-right,
non-overlapping, the alternation preferring the longer branch with the
optional trailing newline. -/
def cleanFencesAux : Nat → List Char → List Char
  | 0, cs => cs
  | fuel + 1, cs =>
    match cs with
    | [] => []
    | c :: rest =>
      if fenceJsonNl.isPrefixOf cs then cleanFencesAux fuel (cs.drop 8)
      else if fenceJson.isPrefixOf cs then cleanFencesAux fuel (cs.drop 7)
      else if fencePlain.isPrefixOf cs then cleanFencesAux fuel (cs.drop 3)
      else c :: cleanFencesAux fuel rest

def cleanFences (cs : List Char) : List Char := cleanFencesAux cs.length cs

/-- A parsed JSON object: a Python dict from string keys to values. -/
def PyObj : Type := List (List Char × PyJson)

/-- A JSON value of the shape the analysis prompt demands (integer or string). -/
def parseJValue (cs : List Char) : Option (PyJson × List Char) :=
  match parseJString cs with
  | some p => some (PyJson.str p.1, p.2)
  | none =>
    match parseJNat cs with
    | some p => some (PyJson.num p.1, p.2)
    | none => none

/-- Members of a JSON object after the opening brace; requires the input to be
exhausted after the closing brace.  Members are assigned into a Python dict,
so a duplicated key keeps its first position with the last value. -/
def parseObjItems : Nat → List Char → List (List Char × PyJson) →
    Option (List (List Char × PyJson))
  | 0, _, _ => none
  | fuel + 1, cs, acc =>
    match parseJString (skipWs cs) with
    | none => none
    | some k =>
      match skipWs k.2 with
      | ':' :: cs2 =>
        match parseJValue (skipWs cs2) with
        | none => none
        | some v =>
          match skipWs v.2 with
          | ',' :: cs3 => parseObjItems fuel cs3 (pyDictInsert acc k.1 v.1)
          | c :: cs3 =>
            if c = closeBrace then
              if (skipWs cs3).isEmpty then some (pyDictInsert acc k.1 v.1) else none
            else none
          | [] => none
      | _ => none

/-- `json.loads` on the cleaned analysis response, modeled on the response
shape the analysis prompt demands (a flat JSON object with integer or string
values); any other input raises, i.e. returns `none`. -/
def jsonParseObj (cs : List Char) : Option (List (List Char × PyJson)) :=
  match skipWs cs with
  | c :: rest =>
    if c = openBrace then
      match skipWs rest with
      | d :: rest2 =>
        if d = closeBrace then
          if (skipWs rest2).isEmpty then some [] else none
        else parseObjItems (rest.length + 1) rest []
      | [] => none
    else none
  | [] => none

/-- Outcome of `generate_personality_analysis`.  Its `except` branch formats
`response.text`; under Python scoping `response` is a local that is only bound
once `model.generate_content` returns, so when the oracle call itself raises,
the handler raises an unbound-local `NameError` instead of returning — the
outcome `raisedNameError`. -/
inductive PAnalysisResult where
  | returned : Option (List (List Char × PyJson)) → PAnalysisResult
  | raisedNameError : PAnalysisResult
deriving DecidableEq

/-- `generate_personality_analysis`: call the oracle, strip code fences, parse
a JSON object.  A parse failure is handled (errors shown, `None` returned);
an oracle failure makes the handler itself raise on the unbound `response`. -/
def generate_personality_analysis (oracle : List Char → Except (List Char) (List Char))
    (character_name base_summary : List Char) : PAnalysisResult :=
  match oracle (analysisPrompt character_name base_summary) with
  | .error _ => .raisedNameError
  | .ok txt =>
    match jsonParseObj (cleanFences (pyStrip txt)) with
    | some obj => .returned (some obj)
    | none => .returned none

/-- The session updates of the analysis button handler in
`display_persona_form_and_results` once `analysis_data` is truthy: the five
scores via `analysis_data.get(key, 50)`, the radar chart, and the reasoning. -/
def applyAnalysisData (obj : List (List Char × PyJson)) (s : SessionState) : SessionState :=
  { s with
    openness := pyJsonToVal (pyGet obj "openness".data (PyJson.num 50)),
    conscientiousness := pyJsonToVal (pyGet obj "conscientiousness".data (PyJson.num 50)),
    extraversion := pyJsonToVal (pyGet obj "extraversion".data (PyJson.num 50)),
    agreeableness := pyJsonToVal (pyGet obj "agreeableness".data (PyJson.num 50)),
    neuroticism := pyJsonToVal (pyGet obj "neuroticism".data (PyJson.num 50)),
    radar_chart := PyVal.vChart,
    analysis_reasoning :=
      pyJsonToVal (pyGet obj "reasoning".data
        (PyJson.str "분석 이유를 가져오지 못했습니다.".data)) }

/-- The analysis button handler: run `generate_personality_analysis` and apply
its result under `if analysis_data:`, which is falsy for `None` and for the
empty dict; a `NameError` escaping the call aborts the handler. -/
def analysisButtonStep (oracle : List Char → Except (List Char) (List Char))
    (s : SessionState) : SessionState :=
  match generate_personality_analysis oracle (getStr s.character_name_input)
      (getStr s.base_summary) with
  | .raisedNameError => s
  | .returned none => s
  | .returned (some obj) => if obj.isEmpty then s else applyAnalysisData obj s

/-! ## mainApp.py: the Summarize button -/

/-- The reset loop of the Summarize button handler in `main`: every key in
`keys_to_reset` is set to `""`, except `radar_chart` which is set to `None`. -/
def resetForSummarize (s : SessionState) : SessionState :=
  { s with
    base_summary := PyVal.vStr [], translated_summary := PyVal.vStr [],
    perspective_text := PyVal.vStr [], final_summary := PyVal.vStr [],
    analysis_reasoning := PyVal.vStr [], radar_chart := PyVal.vNone,
    character_list := PyVal.vStr [], character_name_input := PyVal.vStr [] }

/-- The full Summarize button handler: reset, `generate_summary`, and — if a
summary was produced — `extract_characters_from_summary`. -/
def summarizeButtonStep (oracle : List Char → Except (List Char) (List Char))
    (s : SessionState) : SessionState :=
  let s1 := resetForSummarize s
  let s2 := generate_summary oracle (getStr s1.novel_text) s1
  if pyTruthy s2.base_summary then
    extract_characters_from_summary oracle (getStr s2.base_summary) s2
  else s2

/-- A state already holding `MAX_BOOKS_TO_LIST` accepted candidates, used to
exercise the early-termination branch of the scan loop. -/
def fullScanState : ScanState := ⟨List.replicate 50 ([], []), [], []⟩

/-! ## Concrete oracles and sessions -/

/-- An oracle whose every call fails. -/
def allErrOracle : List Char → Except (List Char) (List Char) :=
  fun _ => Except.error "err".data

/-- An oracle answering the summary prompt for the novel "NOVEL" and failing
every other call (in particular the follow-up translate call). -/
def cexOracleC3 : List Char → Except (List Char) (List Char) :=
  fun p => if p = summaryPrompt "NOVEL".data then Except.ok "NEW".data
           else Except.error "quota".data

/-- A session holding an earlier summary "OLD". -/
def s0C3 : SessionState := { initialSessionState with base_summary := PyVal.vStr "OLD".data }

/-- An oracle answering every call with a response holding one bracketed array. -/
def exOracleC7 : List Char → Except (List Char) (List Char) :=
  fun _ => Except.ok "Some text [\"Alice\",\"Bob\"] trailing".data

/-- An oracle answering every call with a response holding two bracketed
arrays on one line. -/
def cexOracleC7 : List Char → Except (List Char) (List Char) :=
  fun _ => Except.ok "x [\"A\"] y [\"B\"] z".data

/-- The personality response of the spec example: four scores and a reasoning,
no neuroticism key. -/
def exRespC6 : List Char :=
  "\x7b\"openness\":70,\"conscientiousness\":40,\"extraversion\":60,\"agreeableness\":55,\"reasoning\":\"basis\"\x7d".data

def exOracleC6 : List Char → Except (List Char) (List Char) :=
  fun _ => Except.ok exRespC6

/-- The parsed object of the spec example. -/
def exObjC6 : List (List Char × PyJson) :=
  [("openness".data, PyJson.num 70), ("conscientiousness".data, PyJson.num 40),
   ("extraversion".data, PyJson.num 60), ("agreeableness".data, PyJson.num 55),
   ("reasoning".data, PyJson.str "basis".data)]

/-- An oracle answering with the empty JSON object. -/
def emptyObjOracleC6 : List Char → Except (List Char) (List Char) :=
  fun _ => Except.ok "\x7b\x7d".data

/-- A session where the user has moved the openness slider to 80 and prepared
an analysis (summary present, character name entered). -/
def s80C6 : SessionState :=
  { initialSessionState with
    openness := PyVal.vNat 80,
    base_summary := PyVal.vStr "S".data, character_name_input := PyVal.vStr "N".data }

/-- An oracle answering plain prose, unparseable as a JSON object. -/
def badJsonOracleC10 : List Char → Except (List Char) (List Char) :=
  fun _ => Except.ok "hello".data

/-! ## Concrete corpora -/

/-- A 70000-character document titled "A Study in Scarlet". -/
def dAtext : List Char := "Title: A Study in Scarlet\n".data ++ List.replicate 69974 'a'

/-- A 70000-character document titled "Sherlock Holmes in Scarlet". -/
def dBtext : List Char := "Title: Sherlock Holmes in Scarlet\n".data ++ List.replicate 69966 'a'

/-- A 70000-character document titled "Zebra Tales" (no priority keyword). -/
def dCtext : List Char := "Title: Zebra Tales\n".data ++ List.replicate 69981 'a'

def dA : Document := ⟨dAtext⟩

def dB : Document := ⟨dBtext⟩

def dC : Document := ⟨dCtext⟩

/-- doc1 of the concrete scenario: length 80000, title "Moby Dick". -/
def d1text : List Char := "Title: Moby Dick\n".data ++ List.replicate 79983 'a'

/-- doc2 of the concrete scenario: length 50000, title "Unknown". -/
def d2text : List Char := "Title: Unknown\n".data ++ List.replicate 49985 'a'

/-- doc3 of the concrete scenario: length 90000, title "Dracula". -/
def d3text : List Char := "Title: Dracula\n".data ++ List.replicate 89985 'a'

def d1 : Document := ⟨d1text⟩

def d2 : Document := ⟨d2text⟩

def d3 : Document := ⟨d3text⟩

/-- The keyword list of the concrete scenario of the spec. -/
def kws9 : List (List Char) := ["moby dick".data, "dracula".data]

/-- Scan state after accepting `dA` as priority for "scarlet". -/
def stA : ScanState :=
  ⟨[("A Study in Scarlet".data, dAtext)], [], ["scarlet".data]⟩

/-- Scan state after accepting `dA` then `dB`, both priority. -/
def stAB : ScanState :=
  ⟨[("A Study in Scarlet".data, dAtext), ("Sherlock Holmes in Scarlet".data, dBtext)],
   [], ["scarlet".data, "sherlock holmes".data]⟩

/-- Scan state after accepting `dA` (priority) then `dC` (other). -/
def stAC : ScanState :=
  ⟨[("A Study in Scarlet".data, dAtext)], [("Zebra Tales".data, dCtext)],
   ["scarlet".data]⟩

/-- Scan state of the concrete scenario after doc1. -/
def c9mid : ScanState := ⟨[("Moby Dick".data, d1text)], [], ["moby dick".data]⟩

/-- Final scan state of the concrete scenario. -/
def c9final : ScanState :=
  ⟨[("Moby Dick".data, d1text), ("Dracula".data, d3text)], [],
   ["moby dick".data, "dracula".data]⟩

/-! ## Lemmas about the scan loop -/

lemma processDoc_count_le (minLen : Nat) (kws : List (List Char)) (maxB : Nat)
    (st : ScanState) (d : Document) :
    (processDoc minLen kws maxB st d).count ≤ st.count + 1 := by
  unfold processDoc
  split
  · omega
  · split
    · omega
    · dsimp only
      split
      · omega
      · split
        · simp only [ScanState.count, List.length_append, List.length_cons,
            List.length_nil]
          omega
        · split
          · simp only [ScanState.count, List.length_append, List.length_cons,
              List.length_nil]
            omega
          · omega

lemma scanGo_count_le (minLen : Nat) (kws : List (List Char)) (maxB : Nat)
    (docs : List Document) (st : ScanState) (h : st.count ≤ maxB) :
    (scanGo minLen kws maxB st docs).count ≤ maxB := by
  induction docs generalizing st with
  | nil => simpa [scanGo] using h
  | cons d ds ih =>
    unfold scanGo
    split
    · exact h
    · rename_i hlt
      apply ih
      have := processDoc_count_le minLen kws maxB st d
      omega

lemma scanGo_stop (minLen : Nat) (kws : List (List Char)) (maxB : Nat)
    (st : ScanState) (d : Document) (ds : List Document) (h : maxB ≤ st.count) :
    scanGo minLen kws maxB st (d :: ds) = st := by
  unfold scanGo
  rw [if_pos h]

lemma scanGo_cons (minLen : Nat) (kws : List (List Char)) (maxB : Nat)
    (st : ScanState) (d : Document) (ds : List Document) (h : ¬ maxB ≤ st.count) :
    scanGo minLen kws maxB st (d :: ds) =
      scanGo minLen kws maxB (processDoc minLen kws maxB st d) ds := by
  conv_lhs => unfold scanGo
  rw [if_neg h]

lemma scanGo_nil (minLen : Nat) (kws : List (List Char)) (maxB : Nat)
    (st : ScanState) : scanGo minLen kws maxB st [] = st := rfl

/-- Claim C1: for every corpus and every interleaving of priority and
non-priority acceptances, the scan loop of `find_and_sort_books` stops as soon
as the accepted candidates (priority plus other) reach `MAX_BOOKS_TO_LIST` —
a state at the cap consumes no further document — and the total number of
accepted candidates never exceeds `MAX_BOOKS_TO_LIST`. -/
theorem claim_C1_cap_and_early_termination :
    (∀ corpus : List Document,
       (find_and_sort_books corpus).1.length ≤ MAX_BOOKS_TO_LIST) ∧
    (∀ (st : ScanState) (d : Document) (ds : List Document),
       MAX_BOOKS_TO_LIST ≤ st.count →
       scanGo MIN_BOOK_LENGTH PRIORITY_KEYWORDS MAX_BOOKS_TO_LIST st (d :: ds) = st) := by
  constructor
  · intro corpus
    have h := scanGo_count_le MIN_BOOK_LENGTH PRIORITY_KEYWORDS MAX_BOOKS_TO_LIST
      (corpus.take SEARCH_LIMIT) ScanState.empty (by decide)
    simpa [find_and_sort_books, orderedTitlesOf, dictKeys, scanStateOf,
      ScanState.count] using h
  · intro st d ds h
    exact scanGo_stop _ _ _ _ _ _ h

/-- Witness for C1: a scan state already holding 50 candidates consumes no
further document, and the cap holds on a concrete corpus. -/
theorem claim_C1_witness :
    scanGo MIN_BOOK_LENGTH PRIORITY_KEYWORDS MAX_BOOKS_TO_LIST fullScanState [⟨[]⟩]
        = fullScanState ∧
    (find_and_sort_books []).1.length ≤ MAX_BOOKS_TO_LIST :=
  ⟨claim_C1_cap_and_early_termination.2 fullScanState ⟨[]⟩ [] (by decide),
   claim_C1_cap_and_early_termination.1 []⟩

/-! ## Evaluation of the scan on the concrete corpora -/

lemma processDoc_reduce (minLen : Nat) (kws : List (List Char)) (maxB : Nat)
    (st : ScanState) (d : Document) (g : List Char)
    (hlen : ¬ d.text.length < minLen) (hft : findTitle d.text = some g) :
    processDoc minLen kws maxB st d =
      (if pyStrip g = [] ∨ pyStrip g ∈ dictKeys st.priority ∨ pyStrip g ∈ dictKeys st.other
       then st
       else
         match firstUnconsumed kws st.found (normalizeTitle (pyStrip g)) with
         | some kw =>
           { st with priority := st.priority ++ [(pyStrip g, d.text)],
                     found := st.found ++ [kw] }
         | none =>
           if st.other.length < maxB - kws.length then
             { st with other := st.other ++ [(pyStrip g, d.text)] }
           else st) := by
  unfold processDoc
  rw [if_neg hlen, hft]

lemma dA_long : ¬ dA.text.length < MIN_BOOK_LENGTH := by
  have h : dA.text.length = 70000 := by
    show ("Title: A Study in Scarlet\n".data ++ List.replicate 69974 'a').length = 70000
    rw [List.length_append, List.length_replicate,
      show ("Title: A Study in Scarlet\n".data).length = 26 from by decide]
  rw [h]
  decide

lemma dB_long : ¬ dB.text.length < MIN_BOOK_LENGTH := by
  have h : dB.text.length = 70000 := by
    show ("Title: Sherlock Holmes in Scarlet\n".data ++ List.replicate 69966 'a').length = 70000
    rw [List.length_append, List.length_replicate,
      show ("Title: Sherlock Holmes in Scarlet\n".data).length = 34 from by decide]
  rw [h]
  decide

lemma dC_long : ¬ dC.text.length < MIN_BOOK_LENGTH := by
  have h : dC.text.length = 70000 := by
    show ("Title: Zebra Tales\n".data ++ List.replicate 69981 'a').length = 70000
    rw [List.length_append, List.length_replicate,
      show ("Title: Zebra Tales\n".data).length = 19 from by decide]
  rw [h]
  decide

lemma d1_len : d1.text.length = 80000 := by
  show ("Title: Moby Dick\n".data ++ List.replicate 79983 'a').length = 80000
  rw [List.length_append, List.length_replicate,
    show ("Title: Moby Dick\n".data).length = 17 from by decide]

lemma d2_len : d2.text.length = 50000 := by
  show ("Title: Unknown\n".data ++ List.replicate 49985 'a').length = 50000
  rw [List.length_append, List.length_replicate,
    show ("Title: Unknown\n".data).length = 15 from by decide]

lemma d3_len : d3.text.length = 90000 := by
  show ("Title: Dracula\n".data ++ List.replicate 89985 'a').length = 90000
  rw [List.length_append, List.length_replicate,
    show ("Title: Dracula\n".data).length = 15 from by decide]

lemma dA_title : findTitle dA.text = some "A Study in Scarlet".data := by decide

lemma dB_title : findTitle dB.text = some "Sherlock Holmes in Scarlet".data := by decide

lemma dC_title : findTitle dC.text = some "Zebra Tales".data := by decide

lemma d1_title : findTitle d1.text = some "Moby Dick".data := by decide

lemma d3_title : findTitle d3.text = some "Dracula".data := by decide

lemma step_dA :
    processDoc MIN_BOOK_LENGTH PRIORITY_KEYWORDS MAX_BOOKS_TO_LIST ScanState.empty dA = stA := by
  rw [processDoc_reduce _ _ _ _ _ _ dA_long dA_title,
    show pyStrip "A Study in Scarlet".data = "A Study in Scarlet".data from by decide,
    if_neg (by decide),
    show firstUnconsumed PRIORITY_KEYWORDS ScanState.empty.found
      (normalizeTitle "A Study in Scarlet".data) = some "scarlet".data from by decide]
  rfl

lemma step_dB :
    processDoc MIN_BOOK_LENGTH PRIORITY_KEYWORDS MAX_BOOKS_TO_LIST stA dB = stAB := by
  rw [processDoc_reduce _ _ _ _ _ _ dB_long dB_title,
    show pyStrip "Sherlock Holmes in Scarlet".data = "Sherlock Holmes in Scarlet".data
      from by decide,
    if_neg (by decide),
    show firstUnconsumed PRIORITY_KEYWORDS stA.found
      (normalizeTitle "Sherlock Holmes in Scarlet".data) = some "sherlock holmes".data
      from by decide]
  rfl

lemma step_dC :
    processDoc MIN_BOOK_LENGTH PRIORITY_KEYWORDS MAX_BOOKS_TO_LIST stA dC = stAC := by
  rw [processDoc_reduce _ _ _ _ _ _ dC_long dC_title,
    show pyStrip "Zebra Tales".data = "Zebra Tales".data from by decide,
    if_neg (by decide),
    show firstUnconsumed PRIORITY_KEYWORDS stA.found
      (normalizeTitle "Zebra Tales".data) = none from by decide,
    if_pos (by decide)]
  rfl

lemma step_d1 : processDoc 70000 kws9 2 ScanState.empty d1 = c9mid := by
  have h1 : ¬ d1.text.length < 70000 := by rw [d1_len]; decide
  rw [processDoc_reduce _ _ _ _ _ _ h1 d1_title,
    show pyStrip "Moby Dick".data = "Moby Dick".data from by decide,
    if_neg (by decide),
    show firstUnconsumed kws9 ScanState.empty.found
      (normalizeTitle "Moby Dick".data) = some "moby dick".data from by decide]
  rfl

lemma step_d2 : processDoc 70000 kws9 2 c9mid d2 = c9mid := by
  have h2 : d2.text.length < 70000 := by rw [d2_len]; decide
  unfold processDoc
  rw [if_pos h2]

lemma step_d3 : processDoc 70000 kws9 2 c9mid d3 = c9final := by
  have h3 : ¬ d3.text.length < 70000 := by rw [d3_len]; decide
  rw [processDoc_reduce _ _ _ _ _ _ h3 d3_title,
    show pyStrip "Dracula".data = "Dracula".data from by decide,
    if_neg (by decide),
    show firstUnconsumed kws9 c9mid.found
      (normalizeTitle "Dracula".data) = some "dracula".data from by decide]
  rfl

lemma c4_scan :
    scanGo MIN_BOOK_LENGTH PRIORITY_KEYWORDS MAX_BOOKS_TO_LIST ScanState.empty [dA, dB]
      = stAB := by
  rw [scanGo_cons _ _ _ _ _ _ (by decide), step_dA,
    scanGo_cons _ _ _ _ _ _ (by decide), step_dB, scanGo_nil]

lemma c8_scanState : scanStateOf [dA, dC] = stAC := by
  show scanGo MIN_BOOK_LENGTH PRIORITY_KEYWORDS MAX_BOOKS_TO_LIST ScanState.empty
    ([dA, dC].take SEARCH_LIMIT) = stAC
  rw [show [dA, dC].take SEARCH_LIMIT = [dA, dC] from rfl]
  rw [scanGo_cons _ _ _ _ _ _ (by decide), step_dA,
    scanGo_cons _ _ _ _ _ _ (by decide), step_dC, scanGo_nil]

lemma c9_scan : scanGo 70000 kws9 2 ScanState.empty [d1, d2, d3] = c9final := by
  rw [scanGo_cons _ _ _ _ _ _ (by decide), step_d1,
    scanGo_cons _ _ _ _ _ _ (by decide), step_d2,
    scanGo_cons _ _ _ _ _ _ (by decide), step_d3, scanGo_nil]

/-! ## Key-dedup and keyword-consumption invariants of the scan -/

lemma dictKeys_append {κ α : Type} (m₁ m₂ : List (κ × α)) :
    dictKeys (m₁ ++ m₂) = dictKeys m₁ ++ dictKeys m₂ := List.map_append _ _ _

lemma processDoc_nodupKeys (minLen : Nat) (kws : List (List Char)) (maxB : Nat)
    (st : ScanState) (d : Document)
    (h : (dictKeys st.priority ++ dictKeys st.other).Nodup) :
    (dictKeys (processDoc minLen kws maxB st d).priority ++
      dictKeys (processDoc minLen kws maxB st d).other).Nodup := by
  unfold processDoc
  split
  · exact h
  · split
    · exact h
    · dsimp only
      split
      · exact h
      · rename_i hcond
        push_neg at hcond
        obtain ⟨h1, h2, h3⟩ := hcond
        split
        · rw [dictKeys_append]
          show ((dictKeys st.priority ++ [_]) ++ dictKeys st.other).Nodup
          rw [List.append_assoc, List.singleton_append, List.nodup_middle]
          refine List.nodup_cons.mpr ⟨?_, h⟩
          intro hm
          exact (List.mem_append.1 hm).elim h2 h3
        · split
          · rw [dictKeys_append]
            show (dictKeys st.priority ++ (dictKeys st.other ++ [_])).Nodup
            rw [← List.append_assoc, List.nodup_middle]
            refine List.nodup_cons.mpr ⟨?_, by simpa using h⟩
            simp only [List.append_nil, List.mem_append]
            rintro (hm | hm)
            · exact h2 hm
            · exact h3 hm
          · exact h

lemma scanGo_nodupKeys (minLen : Nat) (kws : List (List Char)) (maxB : Nat)
    (docs : List Document) (st : ScanState)
    (h : (dictKeys st.priority ++ dictKeys st.other).Nodup) :
    (dictKeys (scanGo minLen kws maxB st docs).priority ++
      dictKeys (scanGo minLen kws maxB st docs).other).Nodup := by
  induction docs generalizing st with
  | nil => simpa [scanGo_nil] using h
  | cons d ds ih =>
    unfold scanGo
    split
    · exact h
    · exact ih _ (processDoc_nodupKeys _ _ _ _ _ h)

lemma processDoc_foundInv (minLen : Nat) (kws : List (List Char)) (maxB : Nat)
    (st : ScanState) (d : Document)
    (h : st.found.Nodup ∧ st.priority.length = st.found.length) :
    (processDoc minLen kws maxB st d).found.Nodup ∧
      (processDoc minLen kws maxB st d).priority.length =
        (processDoc minLen kws maxB st d).found.length := by
  unfold processDoc
  split
  · exact h
  · split
    · exact h
    · dsimp only
      split
      · exact h
      · split
        · rename_i kw heq
          have hs := List.find?_some heq
          simp only [Bool.and_eq_true, Bool.not_eq_true', decide_eq_false_iff_not] at hs
          constructor
          · rw [List.nodup_append]
            refine ⟨h.1, List.nodup_singleton _, fun a ha hb => ?_⟩
            rw [List.mem_singleton] at hb
            subst hb
            exact hs.2 ha
          · simp only [List.length_append, List.length_cons, List.length_nil, h.2]
        · split
          · exact h
          · exact h

lemma scanGo_foundInv (minLen : Nat) (kws : List (List Char)) (maxB : Nat)
    (docs : List Document) (st : ScanState)
    (h : st.found.Nodup ∧ st.priority.length = st.found.length) :
    (scanGo minLen kws maxB st docs).found.Nodup ∧
      (scanGo minLen kws maxB st docs).priority.length =
        (scanGo minLen kws maxB st docs).found.length := by
  induction docs generalizing st with
  | nil => simpa [scanGo_nil] using h
  | cons d ds ih =>
    unfold scanGo
    split
    · exact h
    · exact ih _ (processDoc_foundInv _ _ _ _ _ h)

lemma firstUnconsumed_spec (kws found : List (List Char)) (nt kw : List Char)
    (h : firstUnconsumed kws found nt = some kw) :
    listInfixOf kw nt = true ∧ kw ∉ found ∧
      ∃ pre post, kws = pre ++ kw :: post ∧
        ∀ kw2 ∈ pre, ¬(listInfixOf kw2 nt = true ∧ kw2 ∉ found) := by
  induction kws with
  | nil => simp [firstUnconsumed] at h
  | cons k ks ih =>
    rw [firstUnconsumed, List.find?_cons] at h
    by_cases hk : (listInfixOf k nt && !(decide (k ∈ found))) = true
    · rw [hk] at h
      have hkk : some k = some kw := h
      rw [Option.some_inj] at hkk
      subst hkk
      simp only [Bool.and_eq_true, Bool.not_eq_true', decide_eq_false_iff_not] at hk
      exact ⟨hk.1, hk.2, [], ks, rfl, by simp⟩
    · rw [Bool.not_eq_true] at hk
      rw [hk] at h
      obtain ⟨h1, h2, pre, post, hkws, hall⟩ := ih (by rw [firstUnconsumed]; exact h)
      refine ⟨h1, h2, k :: pre, post, by rw [List.cons_append, hkws], ?_⟩
      intro kw2 hkw2
      rcases List.mem_cons.1 hkw2 with hkw2 | hkw2
      · subst hkw2
        intro hcon
        have hTrue : (listInfixOf kw2 nt && !(decide (kw2 ∈ found))) = true := by
          rw [hcon.1]
          simp [hcon.2]
        rw [hTrue] at hk
        cases hk
      · exact hall kw2 hkw2

lemma indexOf_lt_length_of_mem {α : Type} [BEq α] [LawfulBEq α] {a : α} {l : List α}
    (h : a ∈ l) : l.indexOf a < l.length := by
  induction l with
  | nil => cases h
  | cons x xs ih =>
    rw [List.indexOf_cons]
    by_cases hx : (x == a) = true
    · simp [hx]
    · rw [Bool.not_eq_true] at hx
      have hmem : a ∈ xs := by
        rcases List.mem_cons.1 h with h1 | h1
        · subst h1
          simp at hx
        · exact h1
      rw [hx, cond_false, List.length_cons]
      exact Nat.succ_lt_succ (ih hmem)

lemma indexOf_append_left {α : Type} [BEq α] [LawfulBEq α] {a : α} {l₁ : List α}
    (l₂ : List α) (h : a ∈ l₁) : (l₁ ++ l₂).indexOf a = l₁.indexOf a := by
  induction l₁ with
  | nil => cases h
  | cons x xs ih =>
    rw [List.cons_append, List.indexOf_cons, List.indexOf_cons]
    by_cases hx : (x == a) = true
    · rw [hx]
      rfl
    · rw [Bool.not_eq_true] at hx
      have hmem : a ∈ xs := by
        rcases List.mem_cons.1 h with h1 | h1
        · subst h1
          simp at hx
        · exact h1
      rw [hx, cond_false, cond_false, ih hmem]

lemma indexOf_append_right {α : Type} [BEq α] [LawfulBEq α] {b : α} {l₁ : List α}
    (l₂ : List α) (h : b ∉ l₁) : (l₁ ++ l₂).indexOf b = l₁.length + l₂.indexOf b := by
  induction l₁ with
  | nil => simp
  | cons x xs ih =>
    have hx : (x == b) = false := by
      rw [Bool.eq_false_iff]
      intro hcon
      rw [beq_iff_eq] at hcon
      exact h (by rw [hcon]; exact List.mem_cons_self _ _)
    rw [List.cons_append, List.indexOf_cons, hx, cond_false, List.length_cons,
      ih (fun hm => h (List.mem_cons_of_mem _ hm))]
    omega

lemma indexOf_append_lt {α : Type} [BEq α] [LawfulBEq α] (l₁ l₂ : List α) (a b : α)
    (hnd : (l₁ ++ l₂).Nodup) (ha : a ∈ l₁) (hb : b ∈ l₂) :
    (l₁ ++ l₂).indexOf a < (l₁ ++ l₂).indexOf b := by
  have hbn : b ∉ l₁ := fun hb1 => (List.disjoint_of_nodup_append hnd) hb1 hb
  rw [indexOf_append_left l₂ ha, indexOf_append_right l₂ hbn]
  have hlt := indexOf_lt_length_of_mem ha
  omega

/-- Claim C4 (amended): each keyword is consumed by at most one title — the
consumed-keyword list stays duplicate-free and grows in lockstep with the
priority bucket — and a title is classified priority for the first keyword in
list order that its normalized form contains and that is still unconsumed; it
is never classified priority *for* a consumed keyword.  (Contrary to the
claim as stated, a later title containing a consumed keyword need not fall
through to the other bucket: it may match a different unconsumed keyword —
see the counterexample.) -/
theorem claim_C4_keyword_consumption_amended :
    (∀ corpus : List Document,
       (scanStateOf corpus).found.Nodup ∧
       (scanStateOf corpus).priority.length = (scanStateOf corpus).found.length) ∧
    (∀ found nt kw, firstUnconsumed PRIORITY_KEYWORDS found nt = some kw →
       listInfixOf kw nt = true ∧ kw ∉ found ∧
       ∃ pre post, PRIORITY_KEYWORDS = pre ++ kw :: post ∧
         ∀ kw2 ∈ pre, ¬(listInfixOf kw2 nt = true ∧ kw2 ∉ found)) := by
  constructor
  · intro corpus
    exact scanGo_foundInv _ _ _ _ _ ⟨List.nodup_nil, rfl⟩
  · intro found nt kw h
    exact firstUnconsumed_spec _ _ _ _ h

/-- Counterexample to claim C4 as stated: "A Study in Scarlet" consumes the
keyword "scarlet"; the later title "Sherlock Holmes in Scarlet" contains the
consumed keyword "scarlet" yet does not fall through to the other bucket — it
is classified priority for the keyword "sherlock holmes". -/
theorem claim_C4_counterexample :
    listInfixOf "scarlet".data (normalizeTitle "Sherlock Holmes in Scarlet".data) = true ∧
    (scanGo MIN_BOOK_LENGTH PRIORITY_KEYWORDS MAX_BOOKS_TO_LIST ScanState.empty
        [dA, dB]).found = ["scarlet".data, "sherlock holmes".data] ∧
    dictKeys (scanGo MIN_BOOK_LENGTH PRIORITY_KEYWORDS MAX_BOOKS_TO_LIST ScanState.empty
        [dA, dB]).priority
      = ["A Study in Scarlet".data, "Sherlock Holmes in Scarlet".data] ∧
    (scanGo MIN_BOOK_LENGTH PRIORITY_KEYWORDS MAX_BOOKS_TO_LIST ScanState.empty
        [dA, dB]).other = [] := by
  refine ⟨by decide, ?_, ?_, ?_⟩ <;> rw [c4_scan] <;> rfl

/-- Witness for C4 (amended): the classifier assigns "sherlock holmes" to the
normalized title "sherlock holmes in scarlet" when "scarlet" is already
consumed, and the empty corpus scan has duplicate-free consumed keywords. -/
theorem claim_C4_witness :
    listInfixOf "sherlock holmes".data
        (normalizeTitle "Sherlock Holmes in Scarlet".data) = true ∧
    "sherlock holmes".data ∉ ["scarlet".data] ∧
    (scanStateOf []).found.Nodup :=
  ⟨(claim_C4_keyword_consumption_amended.2 ["scarlet".data]
      (normalizeTitle "Sherlock Holmes in Scarlet".data) "sherlock holmes".data
      (by decide)).1,
   (claim_C4_keyword_consumption_amended.2 ["scarlet".data]
      (normalizeTitle "Sherlock Holmes in Scarlet".data) "sherlock holmes".data
      (by decide)).2.1,
   (claim_C4_keyword_consumption_amended.1 []).1⟩

/-- Claim C8: the final ordered title list is the keys of the priority dict in
insertion order concatenated with the keys of the other dict in insertion
order, so every priority title precedes every non-priority title regardless of
discovery order. -/
theorem claim_C8_priority_first (corpus : List Document) :
    (find_and_sort_books corpus).1 =
      dictKeys (scanStateOf corpus).priority ++ dictKeys (scanStateOf corpus).other ∧
    ∀ p ∈ dictKeys (scanStateOf corpus).priority,
      ∀ o ∈ dictKeys (scanStateOf corpus).other,
        (find_and_sort_books corpus).1.indexOf p <
          (find_and_sort_books corpus).1.indexOf o := by
  refine ⟨rfl, ?_⟩
  intro p hp o ho
  have hnd := scanGo_nodupKeys MIN_BOOK_LENGTH PRIORITY_KEYWORDS MAX_BOOKS_TO_LIST
    (corpus.take SEARCH_LIMIT) ScanState.empty (by decide)
  exact indexOf_append_lt _ _ _ _ hnd hp ho

/-- Witness for C8: on a concrete corpus with one priority title ("A Study in
Scarlet") and one other title ("Zebra Tales"), the priority title comes
first in the ordered title list. -/
theorem claim_C8_witness :
    (find_and_sort_books [dA, dC]).1.indexOf "A Study in Scarlet".data <
      (find_and_sort_books [dA, dC]).1.indexOf "Zebra Tales".data := by
  refine (claim_C8_priority_first [dA, dC]).2 "A Study in Scarlet".data ?_
    "Zebra Tales".data ?_
  · rw [c8_scanState]
    decide
  · rw [c8_scanState]
    decide

/-- Claim C9: on the concrete three-document corpus — doc1 of length 80000
titled "Moby Dick", doc2 of length 50000 titled "Unknown", doc3 of length
90000 titled "Dracula" — with minLength 70000, priority keywords
["moby dick", "dracula"] and target count 2, the scan skips doc2 for being
below the length threshold, classifies doc1 and doc3 as priority, and
produces orderedTitles == ["Moby Dick", "Dracula"]. -/
theorem claim_C9_concrete_scenario :
    d1.text.length = 80000 ∧ d2.text.length = 50000 ∧ d3.text.length = 90000 ∧
    orderedTitlesOf (scanGo 70000 kws9 2 ScanState.empty [d1, d2, d3]) =
      ["Moby Dick".data, "Dracula".data] ∧
    dictKeys (scanGo 70000 kws9 2 ScanState.empty [d1, d2, d3]).priority =
      ["Moby Dick".data, "Dracula".data] ∧
    (scanGo 70000 kws9 2 ScanState.empty [d1, d2, d3]).other = [] := by
  refine ⟨d1_len, d2_len, d3_len, ?_, ?_, ?_⟩ <;> rw [c9_scan] <;> rfl

/-! ## Python-dict lemmas and the title-translation contract -/

lemma dictKeys_cons {κ α : Type} (p : κ × α) (m : List (κ × α)) :
    dictKeys (p :: m) = p.1 :: dictKeys m := rfl

lemma pyDictInsert_fresh {κ α : Type} [DecidableEq κ] (m : List (κ × α)) (k : κ) (v : α)
    (h : k ∉ dictKeys m) : pyDictInsert m k v = m ++ [(k, v)] := by
  have hno : ¬ (m.any (fun p => p.1 = k) = true) := by
    intro hcon
    rw [List.any_eq_true] at hcon
    obtain ⟨p, hp, hpk⟩ := hcon
    rw [decide_eq_true_eq] at hpk
    exact h (hpk ▸ List.mem_map_of_mem Prod.fst hp)
  unfold pyDictInsert
  rw [if_neg hno]

lemma foldl_pyDictInsert_fresh {κ α : Type} [DecidableEq κ] (ps : List (κ × α)) :
    ∀ acc : List (κ × α), (dictKeys ps).Nodup →
      (∀ k ∈ dictKeys ps, k ∉ dictKeys acc) →
      ps.foldl (fun m p => pyDictInsert m p.1 p.2) acc = acc ++ ps := by
  induction ps with
  | nil => intro acc _ _; simp
  | cons p ps ih =>
    obtain ⟨k, v⟩ := p
    intro acc hnd hdisj
    rw [dictKeys_cons, List.nodup_cons] at hnd
    have hd2 : ∀ a ∈ dictKeys ps, a ∉ dictKeys (acc ++ [(k, v)]) := by
      intro a ha hcon
      rw [dictKeys_append] at hcon
      rcases List.mem_append.1 hcon with hc | hc
      · exact hdisj a (by rw [dictKeys_cons]; exact List.mem_cons_of_mem _ ha) hc
      · rw [show dictKeys [(k, v)] = [k] from rfl, List.mem_singleton] at hc
        subst hc
        exact hnd.1 ha
    rw [List.foldl_cons,
      pyDictInsert_fresh acc k v
        (hdisj k (by rw [dictKeys_cons]; exact List.mem_cons_self _ _)),
      ih (acc ++ [(k, v)]) hnd.2 hd2, List.append_assoc]
    rfl

lemma pyLookup_cons {κ α : Type} [DecidableEq κ] (p : κ × α) (m : List (κ × α)) (k : κ) :
    pyLookup (p :: m) k = if p.1 = k then some p.2 else pyLookup m k := by
  unfold pyLookup
  rw [List.find?_cons]
  by_cases h : p.1 = k
  · simp [h]
  · simp [h]

lemma pyLookup_zip_get {κ α : Type} [DecidableEq κ] (ks : List κ) :
    ∀ (vs : List α) (i : Nat) (hnd : ks.Nodup) (h1 : i < ks.length) (h2 : i < vs.length),
      pyLookup (ks.zip vs) (ks.get ⟨i, h1⟩) = some (vs.get ⟨i, h2⟩) := by
  induction ks with
  | nil => intro vs i _ h1 _; cases h1
  | cons k ks ih =>
    intro vs i hnd h1 h2
    cases vs with
    | nil => cases h2
    | cons v vs =>
      rw [List.nodup_cons] at hnd
      cases i with
      | zero =>
        rw [List.zip_cons_cons, pyLookup_cons,
          if_pos (show (k, v).1 = (k :: ks).get ⟨0, h1⟩ from rfl)]
        rfl
      | succ i =>
        have h1' : i < ks.length := by simpa using h1
        have h2' : i < vs.length := by simpa using h2
        have hget : (k :: ks).get ⟨i + 1, h1⟩ = ks.get ⟨i, h1'⟩ := rfl
        have hne : ¬ ((k, v).1 = ks.get ⟨i, h1'⟩) := by
          intro hcon
          have hk : (k, v).1 = k := rfl
          rw [hk] at hcon
          refine hnd.1 ?_
          rw [hcon]
          exact List.get_mem ks i h1'
        rw [hget, List.zip_cons_cons, pyLookup_cons, if_neg hne]
        exact ih vs i hnd.2 h1' h2'

lemma pyDictInsert_id_vals {κ : Type} [DecidableEq κ] (m : List (κ × κ)) (k : κ)
    (h : ∀ p ∈ m, p.2 = p.1) : ∀ p ∈ pyDictInsert m k k, p.2 = p.1 := by
  unfold pyDictInsert
  split
  · intro p hp
    rw [List.mem_map] at hp
    obtain ⟨q, hq, hpq⟩ := hp
    by_cases hqk : q.1 = k
    · rw [if_pos hqk] at hpq
      subst hpq
      exact hqk.symm
    · rw [if_neg hqk] at hpq
      subst hpq
      exact h q hq
  · intro p hp
    rcases List.mem_append.1 hp with hp | hp
    · exact h p hp
    · rw [List.mem_singleton] at hp
      subst hp
      rfl

lemma mem_dictKeys_pyDictInsert_self {κ α : Type} [DecidableEq κ]
    (m : List (κ × α)) (k : κ) (v : α) : k ∈ dictKeys (pyDictInsert m k v) := by
  unfold pyDictInsert
  split
  · rename_i hany
    rw [List.any_eq_true] at hany
    obtain ⟨q, hq, hqk⟩ := hany
    rw [decide_eq_true_eq] at hqk
    subst hqk
    unfold dictKeys
    exact List.mem_map.2 ⟨(q.1, v), List.mem_map.2 ⟨q, hq, by rw [if_pos rfl]⟩, rfl⟩
  · rw [dictKeys_append]
    exact List.mem_append.2 (Or.inr (List.mem_singleton.2 rfl))

lemma mem_dictKeys_pyDictInsert_of {κ α : Type} [DecidableEq κ]
    (m : List (κ × α)) (k a : κ) (v : α) (h : a ∈ dictKeys m) :
    a ∈ dictKeys (pyDictInsert m k v) := by
  unfold pyDictInsert
  split
  · have hkeys : dictKeys (m.map (fun p => if p.1 = k then (p.1, v) else p)) = dictKeys m := by
      unfold dictKeys
      rw [List.map_map]
      apply List.map_congr_left
      intro p _
      simp only [Function.comp_apply]
      split <;> rfl
    rw [hkeys]
    exact h
  · rw [dictKeys_append]
    exact List.mem_append.2 (Or.inl h)

lemma foldl_idInsert_vals {κ : Type} [DecidableEq κ] (ts : List κ) :
    ∀ acc : List (κ × κ), (∀ p ∈ acc, p.2 = p.1) →
      ∀ p ∈ ts.foldl (fun m t => pyDictInsert m t t) acc, p.2 = p.1 := by
  induction ts with
  | nil => intro acc hacc; simpa using hacc
  | cons t ts ih =>
    intro acc hacc
    rw [List.foldl_cons]
    exact ih _ (pyDictInsert_id_vals acc t hacc)

lemma foldl_idInsert_key_mem {κ : Type} [DecidableEq κ] (ts : List κ) :
    ∀ (acc : List (κ × κ)) (t : κ), (t ∈ dictKeys acc ∨ t ∈ ts) →
      t ∈ dictKeys (ts.foldl (fun m t => pyDictInsert m t t) acc) := by
  induction ts with
  | nil =>
    intro acc t h
    rcases h with h | h
    · simpa using h
    · cases h
  | cons s ts ih =>
    intro acc t h
    rw [List.foldl_cons]
    rcases h with h | h
    · exact ih _ _ (Or.inl (mem_dictKeys_pyDictInsert_of acc s t s h))
    · rcases List.mem_cons.1 h with h | h
      · subst h
        exact ih _ _ (Or.inl (mem_dictKeys_pyDictInsert_self acc t t))
      · exact ih _ _ (Or.inr h)

lemma pyLookup_of_id_vals {κ : Type} [DecidableEq κ] (m : List (κ × κ))
    (hvals : ∀ p ∈ m, p.2 = p.1) (t : κ) (hmem : t ∈ dictKeys m) :
    pyLookup m t = some t := by
  induction m with
  | nil => simp [dictKeys] at hmem
  | cons p m ih =>
    rw [pyLookup_cons]
    by_cases hp : p.1 = t
    · rw [if_pos hp, hvals p (List.mem_cons_self _ _), hp]
    · rw [if_neg hp]
      apply ih (fun q hq => hvals q (List.mem_cons_of_mem _ hq))
      rw [dictKeys_cons] at hmem
      rcases List.mem_cons.1 hmem with h | h
      · exact absurd h.symm hp
      · exact h

/-- Claim C2 (amended): `translate_titles` splits the *stripped* response on
newlines; when that yields exactly as many lines as input titles *and the
lines are pairwise distinct*, the result is the dict zipping line `i` to title
`i` — with exactly N entries; on a count mismatch it is the identity dict
mapping every original title to itself, and the function is total (never
raises).  (As stated the claim fails: duplicated response lines collapse into
one dict entry — see the counterexample.) -/
theorem claim_C2_translate_titles_amended (oracle : List Char → List Char)
    (titles : List (List Char)) :
    ((respLines oracle titles).length = titles.length →
      (respLines oracle titles).Nodup →
      translate_titles oracle titles = (respLines oracle titles).zip titles ∧
      (translate_titles oracle titles).length = titles.length ∧
      ∀ (i : Nat) (h1 : i < (respLines oracle titles).length) (h2 : i < titles.length),
        pyLookup (translate_titles oracle titles) ((respLines oracle titles).get ⟨i, h1⟩)
          = some (titles.get ⟨i, h2⟩)) ∧
    ((respLines oracle titles).length ≠ titles.length →
      ∀ t ∈ titles, pyLookup (translate_titles oracle titles) t = some t) := by
  constructor
  · intro hlen hnd
    have heq : translate_titles oracle titles = (respLines oracle titles).zip titles := by
      unfold translate_titles
      rw [if_pos hlen.symm]
      have hkeys : dictKeys ((respLines oracle titles).zip titles) = respLines oracle titles := by
        unfold dictKeys
        exact List.map_fst_zip _ _ (le_of_eq hlen)
      rw [foldl_pyDictInsert_fresh _ [] (by rw [hkeys]; exact hnd)
        (by intro k _ hcon; simp [dictKeys] at hcon)]
      rw [List.nil_append]
    refine ⟨heq, ?_, ?_⟩
    · rw [heq, List.length_zip, hlen, Nat.min_self]
    · intro i h1 h2
      rw [heq]
      exact pyLookup_zip_get _ _ _ hnd h1 h2
  · intro hne t ht
    have heq : translate_titles oracle titles =
        titles.foldl (fun m t => pyDictInsert m t t) [] := by
      unfold translate_titles
      rw [if_neg (fun hcon => hne hcon.symm)]
    rw [heq]
    apply pyLookup_of_id_vals
    · exact foldl_idInsert_vals titles [] (by intro p hp; simp at hp)
    · exact foldl_idInsert_key_mem titles [] t (Or.inr ht)

/-- Counterexample to claim C2 as stated: with titles ["X", "Y"] and a
response whose two lines are both "A", the split yields exactly 2 lines, yet
the resulting dict has 1 entry, not 2 (the duplicate key collapses,
last-value-wins), so "a map with exactly N entries" fails. -/
theorem claim_C2_counterexample :
    (respLines cexOracleC2 ["X".data, "Y".data]).length = 2 ∧
    (["X".data, "Y".data] : List (List Char)).length = 2 ∧
    translate_titles cexOracleC2 ["X".data, "Y".data] = [("A".data, "Y".data)] ∧
    (translate_titles cexOracleC2 ["X".data, "Y".data]).length = 1 := by
  refine ⟨by decide, by decide, by decide, by decide⟩

/-- Witness for C2 (amended): with distinct response lines the result is the
index-wise zip; with a count mismatch every title maps to itself. -/
theorem claim_C2_witness :
    translate_titles exOracleC2 ["A".data, "B".data] =
      [("KA".data, "A".data), ("KB".data, "B".data)] ∧
    pyLookup (translate_titles exOracleC2mis ["A".data, "B".data]) "A".data
      = some "A".data := by
  constructor
  · have h := (claim_C2_translate_titles_amended exOracleC2 ["A".data, "B".data]).1
      (by decide) (by decide)
    rw [h.1]
    decide
  · exact (claim_C2_translate_titles_amended exOracleC2mis ["A".data, "B".data]).2
      (by decide) "A".data (by decide)

/-! ## Error isolation of the generation steps -/

lemma generate_summary_novel_text (oracle : List Char → Except (List Char) (List Char))
    (nt : List Char) (s : SessionState) :
    (generate_summary oracle nt s).novel_text = s.novel_text := by
  unfold generate_summary
  cases oracle (summaryPrompt nt) with
  | error e => rfl
  | ok t =>
    dsimp only
    cases oracle (translatePrompt t) with
    | error e => rfl
    | ok t2 => rfl

lemma extract_characters_novel_text (oracle : List Char → Except (List Char) (List Char))
    (b : List Char) (s : SessionState) :
    (extract_characters_from_summary oracle b s).novel_text = s.novel_text := by
  unfold extract_characters_from_summary
  cases oracle (extractPrompt b) with
  | error e => rfl
  | ok txt =>
    dsimp only
    cases bracketMatch txt with
    | none => rfl
    | some m =>
      dsimp only
      cases jsonParseStrArray m with
      | none => rfl
      | some arr => rfl

/-- Claim C3 (amended): a failure of the summary call leaves the whole session
unchanged; a failure of the translate call leaves every field unchanged
*except* `base_summary`, which keeps the already-assigned new summary (the
assignment precedes the translate call inside the one `try`); fields other
than `base_summary` and `translated_summary` are never modified by
`generate_summary`; the persona and re-summarize steps leave the session
unchanged when their oracle call fails.  (As stated the claim fails:
`base_summary` is not restored when the inner translate call fails — see the
counterexample.) -/
theorem claim_C3_error_isolation_amended
    (oracle : List Char → Except (List Char) (List Char)) (nt : List Char)
    (s : SessionState) :
    (∀ e, oracle (summaryPrompt nt) = Except.error e → generate_summary oracle nt s = s) ∧
    (∀ t e, oracle (summaryPrompt nt) = Except.ok t →
       oracle (translatePrompt t) = Except.error e →
       generate_summary oracle nt s = { s with base_summary := PyVal.vStr t }) ∧
    (generate_summary oracle nt s =
      { s with base_summary := (generate_summary oracle nt s).base_summary,
               translated_summary := (generate_summary oracle nt s).translated_summary }) ∧
    (∀ cn bp bs e, oracle (personaPrompt cn bp bs) = Except.error e →
       generate_persona_analysis_with_big5 oracle cn bp bs s = s) ∧
    (∀ pt e, oracle (finalSummaryPrompt pt) = Except.error e →
       summarize_persona_narrative oracle pt s = s) := by
  refine ⟨?_, ?_, ?_, ?_, ?_⟩
  · intro e he
    unfold generate_summary
    rw [he]
  · intro t e ht he
    unfold generate_summary
    rw [ht]
    dsimp only
    rw [he]
  · unfold generate_summary
    cases oracle (summaryPrompt nt) with
    | error e => rfl
    | ok t =>
      dsimp only
      cases oracle (translatePrompt t) with
      | error e => rfl
      | ok t2 => rfl
  · intro cn bp bs e he
    unfold generate_persona_analysis_with_big5
    rw [he]
  · intro pt e he
    unfold summarize_persona_narrative
    rw [he]

/-- Counterexample to claim C3 as stated: the summary call succeeds ("NEW"),
the translate call inside `generate_summary` fails, yet `base_summary` is not
left as it was before the step ("OLD") — it holds "NEW". -/
theorem claim_C3_counterexample :
    cexOracleC3 (summaryPrompt "NOVEL".data) = Except.ok "NEW".data ∧
    cexOracleC3 (translatePrompt "NEW".data) = Except.error "quota".data ∧
    s0C3.base_summary = PyVal.vStr "OLD".data ∧
    (generate_summary cexOracleC3 "NOVEL".data s0C3).base_summary
      = PyVal.vStr "NEW".data := by
  refine ⟨rfl, rfl, by decide, by decide⟩

/-- Witness for C3 (amended): a failing summary call leaves the session
unchanged, and a failing translate call keeps only the new base summary. -/
theorem claim_C3_witness :
    generate_summary allErrOracle "N".data initialSessionState = initialSessionState ∧
    generate_summary cexOracleC3 "NOVEL".data s0C3 =
      { s0C3 with base_summary := PyVal.vStr "NEW".data } :=
  ⟨(claim_C3_error_isolation_amended allErrOracle "N".data initialSessionState).1
      "err".data rfl,
   (claim_C3_error_isolation_amended cexOracleC3 "NOVEL".data s0C3).2.1
      "NEW".data "quota".data rfl rfl⟩

/-- Claim C5: pressing Summarize with a novel selected resets
`perspective_text` and `final_summary` (and the other downstream artifacts:
`base_summary`, `translated_summary`, `analysis_reasoning`, `radar_chart`,
`character_list`, `character_name_input`) to empty/None before regenerating
the summary, while `novel_text` is left unchanged by the whole handler. -/
theorem claim_C5_summarize_reset (oracle : List Char → Except (List Char) (List Char))
    (s : SessionState) :
    (resetForSummarize s).novel_text = s.novel_text ∧
    (resetForSummarize s).perspective_text = PyVal.vStr [] ∧
    (resetForSummarize s).final_summary = PyVal.vStr [] ∧
    (resetForSummarize s).base_summary = PyVal.vStr [] ∧
    (resetForSummarize s).translated_summary = PyVal.vStr [] ∧
    (resetForSummarize s).analysis_reasoning = PyVal.vStr [] ∧
    (resetForSummarize s).radar_chart = PyVal.vNone ∧
    (resetForSummarize s).character_list = PyVal.vStr [] ∧
    (resetForSummarize s).character_name_input = PyVal.vStr [] ∧
    (summarizeButtonStep oracle s).novel_text = s.novel_text := by
  refine ⟨rfl, rfl, rfl, rfl, rfl, rfl, rfl, rfl, rfl, ?_⟩
  unfold summarizeButtonStep
  dsimp only
  split
  · rw [extract_characters_novel_text, generate_summary_novel_text]
    rfl
  · rw [generate_summary_novel_text]
    rfl

/-- Claim C7 (amended): character extraction takes the greedy regex span —
from the first `[` that has a `]` later on its line to the *last* such `]` —
and parses it as JSON; a successful parse becomes the character list (the
example response yields ["Alice","Bob"]); a response with no bracketed span
yields `[]` with a warning; a span that is not valid JSON yields `[]` via the
caught parse error.  (As stated the claim fails: the parsed span is not the
*first* `[...]` substring — see the counterexample.) -/
theorem claim_C7_extract_characters_amended :
    (∀ resp : List Char, (∀ c ∈ resp, c ≠ '[') → bracketMatch resp = none) ∧
    (∀ (oracle : List Char → Except (List Char) (List Char)) (s : SessionState)
       (b resp : List Char), oracle (extractPrompt b) = Except.ok resp →
       (extract_characters_from_summary oracle b s).character_list =
         PyVal.vList (match bracketMatch resp with
           | none => []
           | some m =>
             match jsonParseStrArray m with
             | some arr => arr
             | none => [])) ∧
    bracketMatch "Some text [\"Alice\",\"Bob\"] trailing".data
      = some "[\"Alice\",\"Bob\"]".data ∧
    jsonParseStrArray "[\"Alice\",\"Bob\"]".data = some ["Alice".data, "Bob".data] := by
  refine ⟨?_, ?_, by decide, by decide⟩
  · intro resp h
    induction resp with
    | nil => rfl
    | cons c cs ih =>
      unfold bracketMatch
      rw [if_neg (h c (List.mem_cons_self _ _))]
      exact ih (fun d hd => h d (List.mem_cons_of_mem _ hd))
  · intro oracle s b resp hok
    unfold extract_characters_from_summary
    rw [hok]
    dsimp only
    cases bracketMatch resp with
    | none => rfl
    | some m =>
      dsimp only
      cases jsonParseStrArray m with
      | none => rfl
      | some arr => rfl

/-- Counterexample to claim C7 as stated: for a response with two bracketed
arrays on one line, the greedy regex matches from the first `[` to the last
`]`; that span is not valid JSON, so the character list is set to `[]` — not
to `["A"]`, the parse of the first `[...]` substring. -/
theorem claim_C7_counterexample :
    bracketMatch "x [\"A\"] y [\"B\"] z".data = some "[\"A\"] y [\"B\"]".data ∧
    jsonParseStrArray "[\"A\"] y [\"B\"]".data = none ∧
    jsonParseStrArray "[\"A\"]".data = some ["A".data] ∧
    (extract_characters_from_summary cexOracleC7 "S".data
        initialSessionState).character_list = PyVal.vList [] ∧
    PyVal.vList ["A".data] ≠ PyVal.vList ([] : List (List Char)) := by
  refine ⟨by decide, by decide, by decide, by decide, by decide⟩

/-- Witness for C7 (amended): a bracket-free response yields no match, and the
example response yields the parsed list ["Alice", "Bob"]. -/
theorem claim_C7_witness :
    bracketMatch "no brackets here".data = none ∧
    (extract_characters_from_summary exOracleC7 "S".data
        initialSessionState).character_list
      = PyVal.vList ["Alice".data, "Bob".data] := by
  constructor
  · exact claim_C7_extract_characters_amended.1 "no brackets here".data (by decide)
  · have h := claim_C7_extract_characters_amended.2.1 exOracleC7 initialSessionState
      "S".data "Some text [\"Alice\",\"Bob\"] trailing".data rfl
    rw [h]
    decide

/-! ## Personality analysis: defaults and the unbound `response` handler -/

/-- Claim C6 (amended): for every oracle response that, after stripping code
fences, parses as a *non-empty* JSON object, the handler stores each of the
five scores taken from the object via `analysis_data.get(key, 50)` — the
object's value when the key is present, 50 when it is absent — together with
the reasoning; for the empty object `{}` the guard `if analysis_data:` is
falsy and the session is left unchanged, so scores do not default to 50 in
that case (see the counterexample). -/
theorem claim_C6_personality_defaults_amended
    (oracle : List Char → Except (List Char) (List Char)) (s : SessionState)
    (resp : List Char) (obj : List (List Char × PyJson))
    (h1 : oracle (analysisPrompt (getStr s.character_name_input) (getStr s.base_summary))
      = Except.ok resp)
    (h2 : jsonParseObj (cleanFences (pyStrip resp)) = some obj)
    (h3 : obj ≠ []) :
    ((analysisButtonStep oracle s).openness
        = pyJsonToVal (pyGet obj "openness".data (PyJson.num 50)) ∧
     (analysisButtonStep oracle s).conscientiousness
        = pyJsonToVal (pyGet obj "conscientiousness".data (PyJson.num 50)) ∧
     (analysisButtonStep oracle s).extraversion
        = pyJsonToVal (pyGet obj "extraversion".data (PyJson.num 50)) ∧
     (analysisButtonStep oracle s).agreeableness
        = pyJsonToVal (pyGet obj "agreeableness".data (PyJson.num 50)) ∧
     (analysisButtonStep oracle s).neuroticism
        = pyJsonToVal (pyGet obj "neuroticism".data (PyJson.num 50))) ∧
    (∀ (k : List Char) (d : PyJson), pyLookup obj k = none → pyGet obj k d = d) ∧
    (∀ (k : List Char) (d v : PyJson), pyLookup obj k = some v → pyGet obj k d = v) := by
  have hg : generate_personality_analysis oracle (getStr s.character_name_input)
      (getStr s.base_summary) = PAnalysisResult.returned (some obj) := by
    unfold generate_personality_analysis
    rw [h1]
    dsimp only
    rw [h2]
  have hb : analysisButtonStep oracle s = applyAnalysisData obj s := by
    unfold analysisButtonStep
    rw [hg]
    dsimp only
    cases obj with
    | nil => exact absurd rfl h3
    | cons p m => rfl
  refine ⟨⟨by rw [hb]; rfl, by rw [hb]; rfl, by rw [hb]; rfl, by rw [hb]; rfl,
    by rw [hb]; rfl⟩, ?_, ?_⟩
  · intro k d hnone
    unfold pyGet
    rw [hnone]
  · intro k d v hsome
    unfold pyGet
    rw [hsome]

/-- Counterexample to claim C6 as stated: the response `{}` parses as a JSON
object with every key absent, yet the resulting profile does not default the
scores to 50 — the handler's truthiness guard skips the update and the
session keeps openness 80. -/
theorem claim_C6_counterexample :
    jsonParseObj (cleanFences (pyStrip "\x7b\x7d".data)) = some [] ∧
    analysisButtonStep emptyObjOracleC6 s80C6 = s80C6 ∧
    (analysisButtonStep emptyObjOracleC6 s80C6).openness = PyVal.vNat 80 ∧
    PyVal.vNat 80 ≠ PyVal.vNat 50 := by
  refine ⟨by decide, by decide, by decide, by decide⟩

/-- Witness for C6 (amended): the spec's example object (four scores given,
`neuroticism` absent) yields neuroticism 50 and the given scores unchanged. -/
theorem claim_C6_witness :
    (analysisButtonStep exOracleC6 s80C6).neuroticism = PyVal.vNat 50 ∧
    (analysisButtonStep exOracleC6 s80C6).openness = PyVal.vNat 70 ∧
    (analysisButtonStep exOracleC6 s80C6).conscientiousness = PyVal.vNat 40 ∧
    (analysisButtonStep exOracleC6 s80C6).extraversion = PyVal.vNat 60 ∧
    (analysisButtonStep exOracleC6 s80C6).agreeableness = PyVal.vNat 55 := by
  have h := claim_C6_personality_defaults_amended exOracleC6 s80C6 exRespC6 exObjC6
    rfl (by decide) (by decide)
  refine ⟨?_, ?_, ?_, ?_, ?_⟩
  · rw [h.1.2.2.2.2]
    decide
  · rw [h.1.1]
    decide
  · rw [h.1.2.1]
    decide
  · rw [h.1.2.2.1]
    decide
  · rw [h.1.2.2.2.1]
    decide

/-- Claim C10: in `generate_personality_analysis`, when the oracle call itself
raises, the local `response` is never bound, so the `except` branch that
formats `response.text` raises an unbound-local error instead of reporting
the failure and returning None; the diagnostic branch completes (errors
shown, None returned) exactly when the failure occurred after the oracle call
returned, i.e. during JSON parsing. -/
theorem claim_C10_unbound_response
    (oracle : List Char → Except (List Char) (List Char))
    (character_name base_summary : List Char) :
    (∀ e, oracle (analysisPrompt character_name base_summary) = Except.error e →
       generate_personality_analysis oracle character_name base_summary
         = PAnalysisResult.raisedNameError) ∧
    (∀ resp, oracle (analysisPrompt character_name base_summary) = Except.ok resp →
       jsonParseObj (cleanFences (pyStrip resp)) = none →
       generate_personality_analysis oracle character_name base_summary
         = PAnalysisResult.returned none) := by
  constructor
  · intro e he
    unfold generate_personality_analysis
    rw [he]
  · intro resp hok hparse
    unfold generate_personality_analysis
    rw [hok]
    dsimp only
    rw [hparse]

/-- Witness for C10: a failing oracle call ends in the unbound-local outcome;
an unparseable successful response ends in the handled None outcome. -/
theorem claim_C10_witness :
    generate_personality_analysis allErrOracle "A".data "B".data
      = PAnalysisResult.raisedNameError ∧
    generate_personality_analysis badJsonOracleC10 "A".data "B".data
      = PAnalysisResult.returned none :=
  ⟨(claim_C10_unbound_response allErrOracle "A".data "B".data).1 "err".data rfl,
   (claim_C10_unbound_response badJsonOracleC10 "A".data "B".data).2 "hello".data rfl
     (by decide)⟩

end AINovel
